import Mathlib

set_option autoImplicit false

/-!
Shallow embedding of `src/Tasks/common/GitRefCreator.ts` (the `GitRefCreator`
class of the vsts-git-release-tag repository) together with models of the
external collaborators it talks to (the task-library variable/input store, the
version-control client and the build client).  Pure functions of the source are
translated to Lean functions; the side effects performed through the task
library (debug/warning/error logging and `setResult`) are made explicit by
threading a `TaskState` record; JavaScript exceptions are modelled with
`Except`, whose error payload carries the state at the moment of the throw.
JavaScript `undefined` (the value returned by `tl.getVariable` or
`tl.getInput` for an absent variable) is modelled as `Option.none`.
-/

/-- Outcome value passed to `tl.setResult`. -/
inductive TaskResult
  | Succeeded
  | Failed
deriving DecidableEq, Repr

/-- One entry of `tl.getVariables()` (name/value pair). -/
structure VariableInfo where
  name : String
  value : String
deriving DecidableEq, Repr

/-- A ref returned by `gitapi.getRefs` (fields used by the source). -/
structure GitRef where
  name : String
  objectId : String
deriving DecidableEq, Repr

/-- The `GitRefUpdate` record built in `updateRef` (line 180-186 of the source). -/
structure GitRefUpdate where
  isLocked : Bool
  name : String
  newObjectId : Option String
  oldObjectId : String
  repositoryId : String
deriving DecidableEq, Repr

/-- The update-status codes of the version-control client that the source
inspects, plus a catch-all for every other member of the enumeration.  (The
wire values are numeric; the source only pattern-matches on the two
permission-denied members.) -/
inductive GitRefUpdateStatus
  | succeeded
  | createBranchPermissionRequired
  | createTagPermissionRequired
  | other
deriving DecidableEq, Repr

/-- One element of the array returned by `gitapi.updateRefs`. -/
structure GitRefUpdateResult where
  success : Bool
  updateStatus : GitRefUpdateStatus
  repositoryId : String
  newObjectId : Option String
deriving DecidableEq, Repr

/-- `IArtifactData` (fields `name`, `commit`, `repositoryId`); `commit` is the
raw result of `tl.getVariable` and may be absent (`undefined`). -/
structure IArtifactData where
  name : String
  commit : Option String
  repositoryId : String
deriving DecidableEq, Repr

/-- The observable effect trace of one invocation: the debug/warning/error
log lines, the `setResult` calls, and (instrumentation) the list of every
`GitRefUpdate` request that was handed to `gitapi.updateRefs`. -/
structure TaskState where
  debugs : List String
  warnings : List String
  errors : List String
  results : List (TaskResult × String)
  submitted : List GitRefUpdate
deriving DecidableEq, Repr

def initState : TaskState := ⟨[], [], [], [], []⟩

def TaskState.debug (st : TaskState) (m : String) : TaskState :=
  { st with debugs := st.debugs ++ [m] }

def TaskState.warning (st : TaskState) (m : String) : TaskState :=
  { st with warnings := st.warnings ++ [m] }

def TaskState.error (st : TaskState) (m : String) : TaskState :=
  { st with errors := st.errors ++ [m] }

def TaskState.setResult (st : TaskState) (r : TaskResult) (m : String) : TaskState :=
  { st with results := st.results ++ [(r, m)] }

def TaskState.submit (st : TaskState) (us : List GitRefUpdate) : TaskState :=
  { st with submitted := st.submitted ++ us }

/-- Render an optional string the way a JavaScript template literal renders
a possibly-undefined value. -/
def optText : Option String → String
  | none => "undefined"
  | some s => s

/-- Textual rendering of an update status for the generic failure message.
(The JavaScript runtime prints the numeric enum value here; no claim depends
on the exact rendering, only on the message being emitted.) -/
def statusText : GitRefUpdateStatus → String
  | .succeeded => "Succeeded"
  | .createBranchPermissionRequired => "CreateBranchPermissionRequired"
  | .createTagPermissionRequired => "CreateTagPermissionRequired"
  | .other => "Other"

/-! ## Model of the discovery regular expression

The source builds `new RegExp("RELEASE\.ARTIFACTS\.(.*)\.REPOSITORY\.PROVIDER", "gi")`
once, before the loop over the variables.  In a JavaScript string literal the
sequence backslash-dot denotes a plain dot, so the compiled pattern is
`RELEASE.ARTIFACTS.(.*).REPOSITORY.PROVIDER` in which every dot is the
metacharacter matching any character except a line terminator.  Because the
`g` flag is set, `exec` starts searching at the regex object's persistent
`lastIndex`, sets `lastIndex` to the end of a successful match, and resets it
to `0` on failure.  The functions below implement exactly this pattern
(case-insensitively, per the `i` flag) and this `lastIndex` protocol. -/

/-- A character the regex metacharacter dot can match (no line terminators). -/
def dotOk (c : Char) : Bool := !(c = '\n' ∨ c = '\r')

/-- Case-insensitive character comparison (the `i` flag). -/
def ciChar (a b : Char) : Bool := a.toLower = b.toLower

/-- Consume a literal (case-insensitively); return the remaining input. -/
def litCI : List Char → List Char → Option (List Char)
  | [], s => some s
  | _ :: _, [] => none
  | p :: ps, c :: cs => if ciChar p c then litCI ps cs else none

/-- Consume one arbitrary (non-line-terminator) character. -/
def anyCharM : List Char → Option (List Char)
  | [] => none
  | c :: cs => if dotOk c then some cs else none

/-- Consume the part of the pattern before the capture group:
`RELEASE` dot `ARTIFACTS` dot (18 characters). -/
def matchLead (s : List Char) : Option (List Char) :=
  (litCI "RELEASE".data s).bind fun s1 =>
    (anyCharM s1).bind fun s2 =>
      (litCI "ARTIFACTS".data s2).bind fun s3 => anyCharM s3

/-- Consume the part of the pattern after the capture group:
dot `REPOSITORY` dot `PROVIDER` (20 characters). -/
def matchTail (s : List Char) : Option (List Char) :=
  (anyCharM s).bind fun s1 =>
    (litCI "REPOSITORY".data s1).bind fun s2 =>
      (anyCharM s2).bind fun s3 => litCI "PROVIDER".data s3

/-- Try to end the capture group after exactly `k` characters. -/
def tryK (s : List Char) (k : Nat) : Option (List Char × List Char) :=
  if (s.take k).all dotOk then
    (matchTail (s.drop k)).map fun rest => (s.take k, rest)
  else none

/-- Greedy search for the capture: longest `k` first. -/
def greedyDown (s : List Char) : Nat → Option (List Char × List Char)
  | 0 => tryK s 0
  | Nat.succ k =>
    match tryK s (k + 1) with
    | some r => some r
    | none => greedyDown s k

def greedyCapture (s : List Char) : Option (List Char × List Char) :=
  greedyDown s s.length

/-- Try a match of the whole pattern starting at the head of `s`; return the
text of the capture group.  (The full match then has length
`18 + capture + 20`.) -/
def matchHere (s : List Char) : Option (List Char) :=
  (matchLead s).bind fun s18 => (greedyCapture s18).map Prod.fst

/-- Leftmost search: try each start position in order; `p` is the absolute
index of the head of `s` in the subject string, used to report the updated
`lastIndex` (end of the match). -/
def searchFrom : List Char → Nat → Option (List Char × Nat)
  | [], _ => none
  | c :: t, p =>
    match matchHere (c :: t) with
    | some cap => some (cap, p + 38 + cap.length)
    | none => searchFrom t (p + 1)

/-- `regexp.exec(name)` for the discovery regex with flags `gi`: takes the
current `lastIndex`, returns the capture group (if any) and the new
`lastIndex`. -/
def regexExecGI (lastIndex : Nat) (name : String) : Option String × Nat :=
  if lastIndex > name.data.length then (none, 0)
  else
    match searchFrom (name.data.drop lastIndex) lastIndex with
    | some (cap, li) => (some (String.mk cap), li)
    | none => (none, 0)

/-! ## Model of the default search/replace rule

`generateRef` compiles the configured search pattern with the configured
flags and applies `String.prototype.replace`.  The regular-expression engine
itself is an external collaborator; it is modelled at the default
configuration, which is all any claim exercises. -/

/-- The JavaScript whitespace class (the characters of `\s` that can occur in
the release names of interest; the full class also contains further Unicode
space separators, none of which affect any claim). -/
def isJsWhitespace (c : Char) : Bool :=
  c = ' ' ∨ c = '\t' ∨ c = '\n' ∨ c = '\x0b' ∨ c = '\x0c' ∨ c = '\r' ∨ c = ' '

/-- Replace every maximal run of whitespace with `repl` (the behaviour of
`replace` with the regex whitespace-run pattern and the `g` flag).  The
`inRun` flag records whether the previous character was part of a run. -/
def stripWs (repl : List Char) : List Char → Bool → List Char
  | [], _ => []
  | c :: rest, inRun =>
    if isJsWhitespace c then
      (if inRun then [] else repl) ++ stripWs repl rest true
    else c :: stripWs repl rest false

/-- Modelled from the spec: the external regular-expression engine used by
`generateRef` (`new RegExp(searchRegex, regexFlags)` followed by
`releaseName.replace(regex, replacePattern)`), specified only at the default
configuration: the default pattern matches runs of whitespace and the default
flags request replace-all-occurrences semantics. -/
def jsEngineDefault (pat flags repl input : String) : String :=
  if pat = "\\s+" ∧ flags = "g" then String.mk (stripWs repl.data input.data false)
  else input

/-! ## External collaborators (interfaces consumed by the source) -/

/-- The task-library configuration surface: `tl.getVariables()`,
`tl.getVariable(name)` and `tl.getInput(name, false)`.  `none` models the
JavaScript `undefined` returned for an absent variable/input. -/
structure Env where
  variableList : List VariableInfo
  getVariable : String → Option String
  getInput : String → Option String

/-- A JavaScript number as produced by `Number(...)` on a build id. -/
inductive JsNum
  | nan
  | num (n : Int)
deriving DecidableEq, Repr

/-- Accumulate a decimal numeral; any non-digit makes the whole parse fail. -/
def decNatAux : List Char → Nat → Option Nat
  | [], acc => some acc
  | c :: cs, acc => if c.isDigit then decNatAux cs (acc * 10 + (c.toNat - 48)) else none

/-- `Number(x)` for `x` the result of `tl.getVariable`: `Number(undefined)`
is `NaN`, `Number("")` is `0`, a (possibly negative) decimal numeral parses,
anything else is `NaN`. -/
def jsToNumber : Option String → JsNum
  | none => .nan
  | some s =>
    match s.data with
    | [] => .num 0
    | '-' :: c :: cs => ((decNatAux (c :: cs) 0).map fun n => JsNum.num (-(n : Int))).getD .nan
    | cs => ((decNatAux cs 0).map fun n => JsNum.num (n : Int)).getD .nan

structure BuildRepository where
  id : String
deriving DecidableEq, Repr

structure Build where
  repository : BuildRepository
deriving DecidableEq, Repr

/-- The build client; a rejected promise (for example for a request built
from a `NaN` build id) is an `Except.error` carrying the exception text. -/
structure BuildApi where
  getBuild : JsNum → Except String Build

/-- The version-control client.  Both calls may resolve to a null/absent
payload, hence the `Option` results. -/
structure GitApi where
  getRefs : String → Option (List GitRef)
  updateRefs : List GitRefUpdate → String → Option (List GitRefUpdateResult)

/-! ## The `GitRefCreator` class (src/Tasks/common/GitRefCreator.ts)

The constructor, `printVersion` and the connection plumbing at the top of
`run` only touch collaborators that are out of scope (console, credential
store); the embedding starts at the artifact logic.  The abstract `refName`
getter (overridden by the concrete tag/branch tasks, which are not part of
the source under verification) is passed as a parameter. -/

def defaultSearchPattern : String := "\\s+"

def defaultRegexFlags : String := "g"

def defaultReplacePattern : String := ""

def permissionTemplate : String := "You must grant the build account access to permission: "

/-- `getInputOrDefault` (lines 63-70). -/
def getInputOrDefault (env : Env) (inputName : String) (defaultValue : String) : String :=
  match env.getInput inputName with
  | some value => value
  | none => defaultValue

/-- `generateRef` (lines 46-61); `engine` is the external regex engine
applied as `engine searchRegex regexFlags replacePattern releaseName`. -/
def generateRef (env : Env) (engine : String → String → String → String → String)
    (releaseName pfx : String) : String :=
  let searchRegex := getInputOrDefault env "searchRegex" defaultSearchPattern
  let regexFlags := getInputOrDefault env "regexFlags" defaultRegexFlags
  let replacePattern := getInputOrDefault env "replacePattern" defaultReplacePattern
  let refName := engine searchRegex regexFlags replacePattern releaseName
  pfx ++ refName

/-- `getRepositoryIdFromBuildNumber` (lines 117-129).  The source guards with
`buildid === null || buildid === ""`; `tl.getVariable` yields `undefined`
(never `null`) for an absent variable and `undefined === null` is false in
JavaScript, so only a present-but-empty value takes the guarded branch; an
absent variable flows into `bldapi.getBuild(Number(undefined))`, that is
`getBuild(NaN)`. -/
def getRepositoryIdFromBuildNumber (env : Env) (bldapi : BuildApi) (name : String)
    (st : TaskState) : Except (String × TaskState) (Option String × TaskState) :=
  let buildidVariable := "RELEASE.ARTIFACTS." ++ name ++ ".BUILDID"
  let buildid := env.getVariable buildidVariable
  if buildid = some "" then
    .ok (none, st.setResult .Failed ("Unable to get build id from variable: " ++ buildidVariable))
  else
    match bldapi.getBuild (jsToNumber buildid) with
    | .error e => .error (e, st)
    | .ok build =>
      .ok (some build.repository.id, st.debug ("Got repositoryid: " ++ build.repository.id))

/-- `getRepositoryId` (lines 108-115): prefer the direct
`RELEASE.ARTIFACTS.<name>.REPOSITORY_ID` variable when present and
non-empty, otherwise fall back to the build lookup. -/
def getRepositoryId (env : Env) (bldapi : BuildApi) (name : String) (st : TaskState) :
    Except (String × TaskState) (Option String × TaskState) :=
  match env.getVariable ("RELEASE.ARTIFACTS." ++ name ++ ".REPOSITORY_ID") with
  | some repositoryId =>
    if repositoryId ≠ "" then .ok (some repositoryId, st)
    else getRepositoryIdFromBuildNumber env bldapi name st
  | none => getRepositoryIdFromBuildNumber env bldapi name st

/-- The loop body of `getAllGitArtifacts` (lines 76-102), with the regex
object's persistent `lastIndex` threaded through the iterations exactly as
the single `RegExp` value created before the loop carries it. -/
def getAllGitArtifactsLoop (env : Env) (bldapi : BuildApi) :
    List VariableInfo → Nat → List IArtifactData → TaskState →
    Except (String × TaskState) (List IArtifactData × TaskState)
  | [], _, acc, st => .ok (acc, st)
  | vi :: rest, lastIndex, acc, st =>
    match regexExecGI lastIndex vi.name with
    | (none, li) =>
      getAllGitArtifactsLoop env bldapi rest li acc
        (st.debug ("No match for variable: " ++ vi.name))
    | (some captured, li) =>
      if vi.value ≠ "TfsGit" ∧ vi.value ≠ "Git" then
        getAllGitArtifactsLoop env bldapi rest li acc
          (st.debug ("Matching variable:  " ++ vi.name ++ ", but artifact type: " ++ vi.value))
      else
        match getRepositoryId env bldapi captured
            (st.debug ("Getting repository id for artifact: " ++ captured)) with
        | .error e => .error e
        | .ok (none, st2) => getAllGitArtifactsLoop env bldapi rest li acc st2
        | .ok (some repositoryId, st2) =>
          let artifact : IArtifactData :=
            { name := captured,
              commit := env.getVariable ("RELEASE.ARTIFACTS." ++ captured ++ ".SOURCEVERSION"),
              repositoryId := repositoryId }
          getAllGitArtifactsLoop env bldapi rest li (acc ++ [artifact]) st2

/-- `getAllGitArtifacts` (lines 72-105). -/
def getAllGitArtifacts (env : Env) (bldapi : BuildApi) (st : TaskState) :
    Except (String × TaskState) (List IArtifactData × TaskState) :=
  getAllGitArtifactsLoop env bldapi env.variableList 0 [] st

/-- The all-zero object id used as `oldObjectId` (line 184). -/
def zeroObjectId : String := "0000000000000000000000000000000000000000"

/-- The `GitRefUpdate` record built for one artifact (lines 180-186). -/
def refUpdateFor (artifact : IArtifactData) (refName : String) : GitRefUpdate :=
  { isLocked := false
    name := refName
    newObjectId := artifact.commit
    oldObjectId := zeroObjectId
    repositoryId := artifact.repositoryId }

/-- `updateRef` (lines 179-196).  The submitted request array is also
recorded in the state (instrumentation used to state invariants about what
is ever handed to `gitapi.updateRefs`). -/
def updateRef (artifact : IArtifactData) (refName : String) (gitapi : GitApi)
    (st : TaskState) : Option GitRefUpdateResult × TaskState :=
  let refArray := [refUpdateFor artifact refName]
  let st1 := st.submit refArray
  match gitapi.updateRefs refArray artifact.repositoryId with
  | none => (none, st1.warning "No update result returned from updateRefs")
  | some [] => (none, st1.warning "No update result returned from updateRefs")
  | some (r :: _) => (some r, st1)

/-- The divergence warning text of `doesRefExist` (line 176). -/
def divergeMsg (artifact : IArtifactData) (foundRef : GitRef) : String :=
  "Ref exists, but on different commit. New commit: " ++ optText artifact.commit ++
    " Old Commit: " ++ foundRef.objectId

/-- `doesRefExist` (lines 160-178). -/
def doesRefExist (artifact : IArtifactData) (refName : String) (gitapi : GitApi)
    (st : TaskState) : Bool × TaskState :=
  match gitapi.getRefs artifact.repositoryId with
  | none => (false, st)
  | some refs =>
    match refs.find? (fun x => x.name == refName) with
    | none => (false, st)
    | some foundRef =>
      if artifact.commit = some foundRef.objectId then
        (true, st.debug "Found matching ref for commit.")
      else
        (false, st.warning (divergeMsg artifact foundRef))

/-- Which exit `processArtifact` took (instrumentation, one value per
return path of the source function). -/
inductive Branch
  | updated
  | alreadyCorrect
  | failedClassified
deriving DecidableEq, Repr

/-- The permissions-administration pointer emitted on line 156. -/
def permSeeMsg (repositoryId : String) : String :=
  "If you need to change permissions see: _admin/_versioncontrol?_a=security&repositoryId=" ++
    repositoryId

/-- The generic failure message of line 158. -/
def createFailMsg (refName : String) (res : GitRefUpdateResult) : String :=
  "Unable to create ref: " ++ refName ++ " UpdateStatus: " ++ statusText res.updateStatus ++
    " RepositoryId: " ++ res.repositoryId ++ " Commit: " ++ optText res.newObjectId

/-- The debug line at the top of `processArtifact` (line 133). -/
def processingMsg (artifact : IArtifactData) (refName : String) : String :=
  "Processing artifact: " ++ artifact.name ++ " for ref: " ++ refName ++
    " new commit: " ++ optText artifact.commit

/-- The classify-and-fail tail of `processArtifact` (lines 147-158): the
switch over the two permission statuses, the permissions pointer, and the
failing `setResult`. -/
def classifyAndFail (st2 : TaskState) (artifact : IArtifactData) (refName : String)
    (updateResult : GitRefUpdateResult) : TaskState :=
  let st3 :=
    match updateResult.updateStatus with
    | .createBranchPermissionRequired => st2.error (permissionTemplate ++ "Create Branch")
    | .createTagPermissionRequired => st2.error (permissionTemplate ++ "Create Tag")
    | _ => st2
  let st4 := st3.error (permSeeMsg artifact.repositoryId)
  st4.setResult .Failed (createFailMsg refName updateResult)

/-- `processArtifact` (lines 131-159).  When `updateRef` resolves to null the
source immediately reads `.success` of it, so the JavaScript runtime throws a
TypeError, modelled as the `Except.error` case. -/
def processArtifact (artifact : IArtifactData) (refName : String) (gitapi : GitApi)
    (st : TaskState) : Except (String × TaskState) (Branch × TaskState) :=
  let stp := st.debug (processingMsg artifact refName)
  match updateRef artifact refName gitapi stp with
  | (none, st1) => .error ("TypeError: Cannot read property success of null", st1)
  | (some updateResult, st1) =>
    if updateResult.success then
      .ok (.updated, st1.debug "Ref updated!")
    else
      match doesRefExist artifact refName gitapi st1 with
      | (true, st2) => .ok (.alreadyCorrect, st2)
      | (false, st2) => .ok (.failedClassified, classifyAndFail st2 artifact refName updateResult)

/-- The artifact loop of `run` (lines 38-40); records which branch each
completed artifact took.  An exception aborts the loop. -/
def runLoop (gitapi : GitApi) (refName : String) :
    List IArtifactData → List (String × Branch) → TaskState →
    Except (String × TaskState) (List (String × Branch) × TaskState)
  | [], acc, st => .ok (acc, st)
  | a :: rest, acc, st =>
    match processArtifact a refName gitapi st with
    | .error e => .error e
    | .ok (b, st1) => runLoop gitapi refName rest (acc ++ [(a.name, b)]) st1

/-- `run` (lines 21-44), from artifact discovery on: the try/catch wraps both
the discovery and the artifact loop, and a caught exception is reported via
`tl.setResult(Failed, err.message)` and ends the invocation. -/
def run (env : Env) (bldapi : BuildApi) (gitapi : GitApi) (refName : String) :
    List (String × Branch) × TaskState :=
  match getAllGitArtifacts env bldapi initState with
  | .error (e, st) => ([], st.setResult .Failed e)
  | .ok (artifactData, st) =>
    let st1 := if artifactData.length = 0 then st.warning "No TfsGit artifacts found." else st
    match runLoop gitapi refName artifactData [] st1 with
    | .error (e, st2) => ([], st2.setResult .Failed e)
    | .ok (outs, st2) => (outs, st2)

/-! ## A model of the external ref store

Needed for the two-run idempotence claim, which quantifies over successive
invocations against the same evolving repository. -/

/-- Modelled from the spec: the version-control collaborator's ref store.  A
request whose `oldObjectId` is the all-zero sentinel is a pure create: it
succeeds exactly when no ref of that name exists yet (an existing ref is
never moved or overwritten). -/
def serverGitApi (repo : List GitRef) : GitApi :=
  { getRefs := fun _ => some repo
    updateRefs := fun updates _ =>
      some (updates.map fun u =>
        if repo.any (fun r => r.name == u.name) then
          { success := false, updateStatus := .other, repositoryId := u.repositoryId,
            newObjectId := u.newObjectId }
        else
          { success := true, updateStatus := .succeeded, repositoryId := u.repositoryId,
            newObjectId := u.newObjectId }) }

/-- Modelled from the spec: the state transition of the ref store under the
same create-only semantics — each successful create appends the new ref. -/
def serverApplyUpdates (repo : List GitRef) (updates : List GitRefUpdate) : List GitRef :=
  updates.foldl
    (fun acc u =>
      if acc.any (fun r => r.name == u.name) then acc
      else acc ++ [{ name := u.name, objectId := u.newObjectId.getD "" }])
    repo

/-- The canonical provider key for artifact name `N`, as named in the spec. -/
def canonKey (N : String) : String := "RELEASE.ARTIFACTS." ++ N ++ ".REPOSITORY.PROVIDER"

def ridKey (N : String) : String := "RELEASE.ARTIFACTS." ++ N ++ ".REPOSITORY_ID"

def bidKey (N : String) : String := "RELEASE.ARTIFACTS." ++ N ++ ".BUILDID"

def svKey (N : String) : String := "RELEASE.ARTIFACTS." ++ N ++ ".SOURCEVERSION"

/-- `key` is the provider key for artifact name `N` up to letter case: the
literal segments RELEASE, ARTIFACTS, REPOSITORY and PROVIDER may appear in
any case (the `i` flag), the separating dots are actual dots, and the middle
token — the text the capture group returns — is exactly `N`. -/
def ciKeyOf (N key : String) : Prop :=
  ∃ r1 a1 s1 p1 : List Char,
    litCI "RELEASE".data r1 = some [] ∧
    litCI "ARTIFACTS".data a1 = some [] ∧
    litCI "REPOSITORY".data s1 = some [] ∧
    litCI "PROVIDER".data p1 = some [] ∧
    key.data = r1 ++ '.' :: (a1 ++ '.' :: (N.data ++ '.' :: (s1 ++ '.' :: p1)))

/-- The task state carried by either outcome of a call (a JavaScript throw
keeps the effects performed before it). -/
def stateOf {α : Type} : Except (String × TaskState) (α × TaskState) → TaskState
  | .ok (_, st) => st
  | .error (_, st) => st

/-! ## Concrete fixtures used by witnesses, counterexamples and failing inputs -/

def artifactW : IArtifactData := { name := "A", commit := some "c1", repositoryId := "r" }

/-- A build client that is never consulted successfully. -/
def bldNone : BuildApi := ⟨fun _ => .error "no build api"⟩

/-- An input store with every configuration input absent, so that every
`getInput` falls back to its default. -/
def envDefaults : Env := ⟨[], fun _ => none, fun _ => none⟩

/-- A client whose create attempt fails and whose ref listing reports the
target ref on a different commit (the divergence scenario). -/
def gitDiverged : GitApi :=
  { getRefs := fun _ => some [{ name := "refs/tags/T", objectId := "old1" }]
    updateRefs := fun _ _ =>
      some [{ success := false, updateStatus := .other, repositoryId := "r",
              newObjectId := some "c1" }] }

/-- A client whose `updateRefs` resolves to a null payload. -/
def gitNullResult : GitApi := { getRefs := fun _ => some [], updateRefs := fun _ _ => none }

/-- A client whose `getRefs` resolves to a null payload and whose create
attempt fails. -/
def gitNullRefs : GitApi :=
  { getRefs := fun _ => none
    updateRefs := fun _ _ =>
      some [{ success := false, updateStatus := .other, repositoryId := "r",
              newObjectId := some "c1" }] }

/-- A client denying branch creation; the repository holds an unrelated ref. -/
def gitPermBranch : GitApi :=
  { getRefs := fun _ => some [{ name := "refs/heads/main", objectId := "m1" }]
    updateRefs := fun _ _ =>
      some [{ success := false, updateStatus := .createBranchPermissionRequired,
              repositoryId := "r", newObjectId := some "c1" }] }

/-- A client denying tag creation; the repository holds an unrelated ref. -/
def gitPermTag : GitApi :=
  { getRefs := fun _ => some [{ name := "refs/heads/main", objectId := "m1" }]
    updateRefs := fun _ _ =>
      some [{ success := false, updateStatus := .createTagPermissionRequired,
              repositoryId := "r", newObjectId := some "c1" }] }

/-- A client that accepts every create request. -/
def gitAccepts : GitApi :=
  { getRefs := fun _ => some []
    updateRefs := fun us _ =>
      some (us.map fun u =>
        { success := true, updateStatus := .succeeded,
          repositoryId := u.repositoryId, newObjectId := u.newObjectId }) }

/-- Two fully configured provider variables scanned back to back (no other
variable between them). -/
def envTwoProviders : Env :=
  { variableList := [⟨"RELEASE.ARTIFACTS.AA.REPOSITORY.PROVIDER", "Git"⟩,
                     ⟨"RELEASE.ARTIFACTS.BB.REPOSITORY.PROVIDER", "Git"⟩]
    getVariable := fun k =>
      if k = "RELEASE.ARTIFACTS.AA.REPOSITORY_ID" then some "r1"
      else if k = "RELEASE.ARTIFACTS.BB.REPOSITORY_ID" then some "r2"
      else if k = "RELEASE.ARTIFACTS.AA.SOURCEVERSION" then some "ca"
      else if k = "RELEASE.ARTIFACTS.BB.SOURCEVERSION" then some "cb"
      else none
    getInput := fun _ => none }

/-- Two fully configured provider variables separated by an unrelated
variable (so both are discovered). -/
def envC4 : Env :=
  { variableList := [⟨"RELEASE.ARTIFACTS.AA.REPOSITORY.PROVIDER", "Git"⟩,
                     ⟨"X", "y"⟩,
                     ⟨"RELEASE.ARTIFACTS.BB.REPOSITORY.PROVIDER", "Git"⟩]
    getVariable := fun k =>
      if k = "RELEASE.ARTIFACTS.AA.REPOSITORY_ID" then some "r1"
      else if k = "RELEASE.ARTIFACTS.BB.REPOSITORY_ID" then some "r2"
      else if k = "RELEASE.ARTIFACTS.AA.SOURCEVERSION" then some "ca"
      else if k = "RELEASE.ARTIFACTS.BB.SOURCEVERSION" then some "cb"
      else none
    getInput := fun _ => none }

/-- Artifact FF has neither a repository id nor any BUILDID variable at all;
artifact GG after it is fully resolvable. -/
def envC5 : Env :=
  { variableList := [⟨"RELEASE.ARTIFACTS.FF.REPOSITORY.PROVIDER", "Git"⟩,
                     ⟨"X", "y"⟩,
                     ⟨"RELEASE.ARTIFACTS.GG.REPOSITORY.PROVIDER", "Git"⟩]
    getVariable := fun k =>
      if k = "RELEASE.ARTIFACTS.GG.REPOSITORY_ID" then some "r2"
      else if k = "RELEASE.ARTIFACTS.GG.SOURCEVERSION" then some "cg"
      else none
    getInput := fun _ => none }

/-- The same invocation configuration restricted to the resolvable sibling GG. -/
def envC5Sibling : Env :=
  { variableList := [⟨"RELEASE.ARTIFACTS.GG.REPOSITORY.PROVIDER", "Git"⟩]
    getVariable := fun k =>
      if k = "RELEASE.ARTIFACTS.GG.REPOSITORY_ID" then some "r2"
      else if k = "RELEASE.ARTIFACTS.GG.SOURCEVERSION" then some "cg"
      else none
    getInput := fun _ => none }

/-- A single resolvable provider variable (used to exercise a full run). -/
def envSingle : Env :=
  { variableList := [⟨"RELEASE.ARTIFACTS.AA.REPOSITORY.PROVIDER", "Git"⟩]
    getVariable := fun k =>
      if k = "RELEASE.ARTIFACTS.AA.REPOSITORY_ID" then some "r1"
      else if k = "RELEASE.ARTIFACTS.AA.SOURCEVERSION" then some "ca"
      else none
    getInput := fun _ => none }

/-- A mixed-case provider variable for MyArt surrounded by unrelated
variables (the discovery key is matched case-insensitively). -/
def envC6Witness : Env :=
  { variableList := [⟨"X", "y"⟩,
                     ⟨"rElease.ARTIFACTS.MyArt.Repository.proVIDER", "Git"⟩,
                     ⟨"Z", "w"⟩]
    getVariable := fun k =>
      if k = "RELEASE.ARTIFACTS.MyArt.REPOSITORY_ID" then some "rm"
      else if k = "RELEASE.ARTIFACTS.MyArt.SOURCEVERSION" then some "cm"
      else none
    getInput := fun _ => none }

/-- Two fully configured provider variables scanned back to back, the second
one with its SOURCEVERSION variable entirely absent. -/
def envC9Counter : Env :=
  { variableList := [⟨"RELEASE.ARTIFACTS.AA.REPOSITORY.PROVIDER", "Git"⟩,
                     ⟨"RELEASE.ARTIFACTS.BB.REPOSITORY.PROVIDER", "Git"⟩]
    getVariable := fun k =>
      if k = "RELEASE.ARTIFACTS.AA.REPOSITORY_ID" then some "r1"
      else if k = "RELEASE.ARTIFACTS.BB.REPOSITORY_ID" then some "r2"
      else none
    getInput := fun _ => none }

/-- A lower-case TfsGit provider variable for NoSv with surrounding
unrelated variables, no REPOSITORY_ID, a BUILDID, and no SOURCEVERSION
variable at all. -/
def envC9Witness : Env :=
  { variableList := [⟨"q", "z"⟩,
                     ⟨"release.artifacts.NoSv.repository.provider", "TfsGit"⟩,
                     ⟨"w", "k"⟩]
    getVariable := fun k =>
      if k = "RELEASE.ARTIFACTS.NoSv.BUILDID" then some "7" else none
    getInput := fun _ => none }

/-- A build client that resolves well-formed build ids to repository rn. -/
def bldC9 : BuildApi :=
  ⟨fun n =>
    match n with
    | .nan => .error "Build id is not a valid number"
    | .num _ => .ok ⟨⟨"rn"⟩⟩⟩

/-- A build client that rejects the request produced by a NaN build id and
resolves any well-formed id. -/
def bldC5 : BuildApi :=
  ⟨fun n =>
    match n with
    | .nan => .error "Build id is not a valid number"
    | .num _ => .ok ⟨⟨"rb"⟩⟩⟩

/-! ## Projection lemmas for the effect-trace operations -/

@[simp] theorem TaskState.debug_debugs (st : TaskState) (m : String) :
    (st.debug m).debugs = st.debugs ++ [m] := rfl

@[simp] theorem TaskState.debug_warnings (st : TaskState) (m : String) :
    (st.debug m).warnings = st.warnings := rfl

@[simp] theorem TaskState.debug_errors (st : TaskState) (m : String) :
    (st.debug m).errors = st.errors := rfl

@[simp] theorem TaskState.debug_results (st : TaskState) (m : String) :
    (st.debug m).results = st.results := rfl

@[simp] theorem TaskState.debug_submitted (st : TaskState) (m : String) :
    (st.debug m).submitted = st.submitted := rfl

@[simp] theorem TaskState.warning_debugs (st : TaskState) (m : String) :
    (st.warning m).debugs = st.debugs := rfl

@[simp] theorem TaskState.warning_warnings (st : TaskState) (m : String) :
    (st.warning m).warnings = st.warnings ++ [m] := rfl

@[simp] theorem TaskState.warning_errors (st : TaskState) (m : String) :
    (st.warning m).errors = st.errors := rfl

@[simp] theorem TaskState.warning_results (st : TaskState) (m : String) :
    (st.warning m).results = st.results := rfl

@[simp] theorem TaskState.warning_submitted (st : TaskState) (m : String) :
    (st.warning m).submitted = st.submitted := rfl

@[simp] theorem TaskState.error_debugs (st : TaskState) (m : String) :
    (st.error m).debugs = st.debugs := rfl

@[simp] theorem TaskState.error_warnings (st : TaskState) (m : String) :
    (st.error m).warnings = st.warnings := rfl

@[simp] theorem TaskState.error_errors (st : TaskState) (m : String) :
    (st.error m).errors = st.errors ++ [m] := rfl

@[simp] theorem TaskState.error_results (st : TaskState) (m : String) :
    (st.error m).results = st.results := rfl

@[simp] theorem TaskState.error_submitted (st : TaskState) (m : String) :
    (st.error m).submitted = st.submitted := rfl

@[simp] theorem TaskState.setResult_debugs (st : TaskState) (r : TaskResult) (m : String) :
    (st.setResult r m).debugs = st.debugs := rfl

@[simp] theorem TaskState.setResult_warnings (st : TaskState) (r : TaskResult) (m : String) :
    (st.setResult r m).warnings = st.warnings := rfl

@[simp] theorem TaskState.setResult_errors (st : TaskState) (r : TaskResult) (m : String) :
    (st.setResult r m).errors = st.errors := rfl

@[simp] theorem TaskState.setResult_results (st : TaskState) (r : TaskResult) (m : String) :
    (st.setResult r m).results = st.results ++ [(r, m)] := rfl

@[simp] theorem TaskState.setResult_submitted (st : TaskState) (r : TaskResult) (m : String) :
    (st.setResult r m).submitted = st.submitted := rfl

@[simp] theorem TaskState.submit_debugs (st : TaskState) (us : List GitRefUpdate) :
    (st.submit us).debugs = st.debugs := rfl

@[simp] theorem TaskState.submit_warnings (st : TaskState) (us : List GitRefUpdate) :
    (st.submit us).warnings = st.warnings := rfl

@[simp] theorem TaskState.submit_errors (st : TaskState) (us : List GitRefUpdate) :
    (st.submit us).errors = st.errors := rfl

@[simp] theorem TaskState.submit_results (st : TaskState) (us : List GitRefUpdate) :
    (st.submit us).results = st.results := rfl

@[simp] theorem TaskState.submit_submitted (st : TaskState) (us : List GitRefUpdate) :
    (st.submit us).submitted = st.submitted ++ us := rfl

/-! ## Lemmas about the discovery-pattern matcher -/

theorem litCI_length : ∀ (p s r : List Char), litCI p s = some r → s.length = p.length + r.length
  | [], s, r, h => by
    simp only [litCI, Option.some.injEq] at h
    simp [h]
  | _ :: _, [], _, h => by simp [litCI] at h
  | p :: ps, c :: cs, r, h => by
    by_cases hc : ciChar p c
    · have ih := litCI_length ps cs r (by simpa [litCI, hc] using h)
      simp [List.length_cons, ih]
      omega
    · simp [litCI, hc] at h

theorem anyCharM_length (s r : List Char) (h : anyCharM s = some r) :
    s.length = r.length + 1 := by
  cases s with
  | nil => simp [anyCharM] at h
  | cons c cs =>
    by_cases hc : dotOk c
    · simp only [anyCharM, hc, if_pos, Option.some.injEq] at h
      simp [h]
    · simp [anyCharM, hc] at h

theorem matchTail_length (s r : List Char) (h : matchTail s = some r) :
    s.length = r.length + 20 := by
  unfold matchTail at h
  cases h1 : anyCharM s with
  | none => rw [h1] at h; simp at h
  | some s1 =>
    rw [h1] at h
    simp only [Option.some_bind] at h
    cases h2 : litCI "REPOSITORY".data s1 with
    | none => rw [h2] at h; simp at h
    | some s2 =>
      rw [h2] at h
      simp only [Option.some_bind] at h
      cases h3 : anyCharM s2 with
      | none => rw [h3] at h; simp at h
      | some s3 =>
        rw [h3] at h
        simp only [Option.some_bind] at h
        have l1 := anyCharM_length s s1 h1
        have l2 := litCI_length _ s1 s2 h2
        have l3 := anyCharM_length s2 s3 h3
        have l4 := litCI_length _ s3 r h
        simp at l2 l4
        omega

theorem matchTail_none_of_short (s : List Char) (h : s.length < 20) : matchTail s = none := by
  cases hm : matchTail s with
  | none => rfl
  | some r =>
    have := matchTail_length s r hm
    omega

theorem tryK_none_of_gt (s : List Char) (k : Nat) (h : s.length < k + 20) :
    tryK s k = none := by
  have hd : (s.drop k).length < 20 := by
    rw [List.length_drop]
    omega
  unfold tryK
  rw [matchTail_none_of_short _ hd]
  simp

theorem greedyDown_of_some (s : List Char) (k : Nat) (r : List Char × List Char)
    (h : tryK s k = some r) : greedyDown s k = some r := by
  cases k with
  | zero => simpa [greedyDown] using h
  | succ k => simp [greedyDown, h]

theorem greedyDown_skip (s : List Char) :
    ∀ (m k0 : Nat), k0 ≤ m → (∀ j, k0 < j → j ≤ m → tryK s j = none) →
      greedyDown s m = greedyDown s k0
  | 0, k0, h, _ => by
    have : k0 = 0 := by omega
    rw [this]
  | m + 1, k0, h, hn => by
    rcases Nat.eq_or_lt_of_le h with he | hl
    · rw [he]
    · have hnone : tryK s (m + 1) = none := hn (m + 1) (by omega) (by omega)
      have step : greedyDown s (m + 1) = greedyDown s m := by
        simp [greedyDown, hnone]
      rw [step]
      exact greedyDown_skip s m k0 (by omega) (fun j h1 h2 => hn j h1 (by omega))

theorem matchHere_nil : matchHere [] = none := rfl

theorem searchFrom_matched (s : List Char) (p : Nat) (cap : List Char)
    (h : matchHere s = some cap) : searchFrom s p = some (cap, p + 38 + cap.length) := by
  cases s with
  | nil => rw [matchHere_nil] at h; exact absurd h (by simp)
  | cons c t => simp [searchFrom, h]

theorem searchFrom_step_none (c : Char) (t : List Char) (p : Nat)
    (h : matchHere (c :: t) = none) : searchFrom (c :: t) p = searchFrom t (p + 1) := by
  simp [searchFrom, h]

theorem litCI_append_rest : ∀ (p s x : List Char), litCI p s = some [] →
    litCI p (s ++ x) = some x
  | [], s, x, h => by
    simp only [litCI, Option.some.injEq] at h
    rw [h]
    rfl
  | _ :: _, [], _, h => by simp [litCI] at h
  | p :: ps, c :: cs, x, h => by
    by_cases hc : ciChar p c
    · have ih := litCI_append_rest ps cs x (by simpa [litCI, hc] using h)
      simpa [litCI, hc] using ih
    · simp [litCI, hc] at h

theorem anyCharM_dot (y : List Char) : anyCharM ('.' :: y) = some y := rfl

theorem matchLead_ci (r1 a1 x : List Char)
    (hr : litCI "RELEASE".data r1 = some [])
    (ha : litCI "ARTIFACTS".data a1 = some []) :
    matchLead (r1 ++ '.' :: (a1 ++ '.' :: x)) = some x := by
  unfold matchLead
  rw [litCI_append_rest _ _ _ hr]
  simp only [Option.some_bind, anyCharM_dot]
  rw [litCI_append_rest _ _ _ ha]
  simp only [Option.some_bind, anyCharM_dot]

theorem matchTail_ci (s1 p1 : List Char)
    (hs : litCI "REPOSITORY".data s1 = some [])
    (hp : litCI "PROVIDER".data p1 = some []) :
    matchTail ('.' :: (s1 ++ '.' :: p1)) = some [] := by
  unfold matchTail
  simp only [anyCharM_dot, Option.some_bind]
  rw [litCI_append_rest _ _ _ hs]
  simp only [Option.some_bind, anyCharM_dot]
  exact hp

theorem tail_ci_length (s1 p1 : List Char)
    (hs : litCI "REPOSITORY".data s1 = some [])
    (hp : litCI "PROVIDER".data p1 = some []) :
    ('.' :: (s1 ++ '.' :: p1)).length = 20 := by
  have h1 := litCI_length _ s1 [] hs
  have h2 := litCI_length _ p1 [] hp
  simp at h1 h2
  simp [List.length_append, h1, h2]

theorem greedyCapture_of_tail (N T : List Char) (hN : N.all dotOk = true)
    (hT : T.length = 20) (hmt : matchTail T = some []) :
    greedyCapture (N ++ T) = some (N, []) := by
  have hslen : (N ++ T).length = N.length + 20 := by
    rw [List.length_append, hT]
  have htry : tryK (N ++ T) N.length = some (N, []) := by
    unfold tryK
    rw [List.take_left, List.drop_left, hmt]
    simp [hN]
  have hskip : ∀ j, N.length < j → j ≤ (N ++ T).length → tryK (N ++ T) j = none := by
    intro j h1 h2
    exact tryK_none_of_gt _ _ (by omega)
  unfold greedyCapture
  rw [hslen, greedyDown_skip _ (N.length + 20) N.length (by omega)
    (fun j h1 h2 => hskip j h1 (by omega))]
  exact greedyDown_of_some _ _ _ htry

theorem key_exec_ci (N key : String) (hk : ciKeyOf N key)
    (hN : N.data.all dotOk = true) :
    regexExecGI 0 key = (some N, 38 + N.data.length) := by
  obtain ⟨r1, a1, s1, p1, hr, ha, hs, hp, hdata⟩ := hk
  have hT20 : ('.' :: (s1 ++ '.' :: p1)).length = 20 := tail_ci_length s1 p1 hs hp
  have hmt : matchTail ('.' :: (s1 ++ '.' :: p1)) = some [] := matchTail_ci s1 p1 hs hp
  have hmh : matchHere key.data = some N.data := by
    rw [hdata]
    unfold matchHere
    rw [matchLead_ci r1 a1 _ hr ha]
    simp [greedyCapture_of_tail N.data _ hN hT20 hmt]
  have hsf : searchFrom key.data 0 = some (N.data, 38 + N.data.length) := by
    rw [searchFrom_matched _ _ _ hmh]
  unfold regexExecGI
  rw [if_neg (by omega), List.drop_zero, hsf]

theorem searchFrom_none_pos (s : List Char) :
    ∀ p q, searchFrom s p = none → searchFrom s q = none := by
  induction s with
  | nil => intro p q _; rfl
  | cons c t ih =>
    intro p q h
    cases hm : matchHere (c :: t) with
    | some cap =>
      rw [searchFrom_matched _ _ _ hm] at h
      exact absurd h (by simp)
    | none =>
      rw [searchFrom_step_none _ _ _ hm] at h
      rw [searchFrom_step_none _ _ _ hm]
      exact ih _ _ h

theorem searchFrom_drop_none (s : List Char) (h : searchFrom s 0 = none) :
    ∀ k p, searchFrom (s.drop k) p = none := by
  induction s with
  | nil =>
    intro k p
    rw [List.drop_nil]
    rfl
  | cons c t ih =>
    intro k p
    cases k with
    | zero =>
      rw [List.drop_zero]
      exact searchFrom_none_pos _ 0 p h
    | succ k =>
      have ht : searchFrom t 0 = none := by
        cases hm : matchHere (c :: t) with
        | some cap =>
          rw [searchFrom_matched _ _ _ hm] at h
          exact absurd h (by simp)
        | none =>
          rw [searchFrom_step_none _ _ _ hm] at h
          exact searchFrom_none_pos t 1 0 h
      rw [List.drop_succ_cons]
      exact ih ht k p

theorem regexExecGI_nowhere (v : String) (h : searchFrom v.data 0 = none) (li : Nat) :
    regexExecGI li v = (none, 0) := by
  unfold regexExecGI
  by_cases hl : li > v.data.length
  · rw [if_pos hl]
  · rw [if_neg hl, searchFrom_drop_none v.data h li li]

theorem loop_skip_all (env : Env) (bld : BuildApi) :
    ∀ (vs : List VariableInfo), (∀ v ∈ vs, searchFrom v.name.data 0 = none) →
    ∀ li acc st, ∃ st2, getAllGitArtifactsLoop env bld vs li acc st = .ok (acc, st2) := by
  intro vs
  induction vs with
  | nil => exact fun _ li acc st => ⟨st, rfl⟩
  | cons v vs ih =>
    intro h li acc st
    have hv := regexExecGI_nowhere v.name (h v (by simp)) li
    have hrest := ih (fun w hw => h w (by simp [hw])) 0 acc
      (st.debug ("No match for variable: " ++ v.name))
    simpa [getAllGitArtifactsLoop, hv] using hrest

theorem loop_skip_zero (env : Env) (bld : BuildApi) :
    ∀ (vs : List VariableInfo), (∀ v ∈ vs, searchFrom v.name.data 0 = none) →
    ∀ (rest : List VariableInfo) acc st, ∃ st2,
      getAllGitArtifactsLoop env bld (vs ++ rest) 0 acc st =
        getAllGitArtifactsLoop env bld rest 0 acc st2 := by
  intro vs
  induction vs with
  | nil => exact fun _ rest acc st => ⟨st, rfl⟩
  | cons v vs ih =>
    intro h rest acc st
    have hv := regexExecGI_nowhere v.name (h v (by simp)) 0
    have hrest := ih (fun w hw => h w (by simp [hw])) rest acc
      (st.debug ("No match for variable: " ++ v.name))
    simpa [getAllGitArtifactsLoop, hv] using hrest

theorem getRepositoryId_resolves (env : Env) (bld : BuildApi) (N rid : String)
    (hrid : (env.getVariable (ridKey N) = some rid ∧ rid ≠ "") ∨
      ((env.getVariable (ridKey N) = none ∨ env.getVariable (ridKey N) = some "") ∧
        ∃ bid build, env.getVariable (bidKey N) = some bid ∧ bid ≠ "" ∧
          bld.getBuild (jsToNumber (some bid)) = .ok build ∧ build.repository.id = rid)) :
    ∀ s : TaskState, ∃ sg, getRepositoryId env bld N s = .ok (some rid, sg) := by
  intro s
  rcases hrid with ⟨h1, h2⟩ | ⟨h1, bid, build, hb1, hb2, hb3, hb4⟩
  · refine ⟨s, ?_⟩
    unfold getRepositoryId
    simp only [ridKey] at h1
    rw [h1]
    simp [h2]
  · have hfb : getRepositoryIdFromBuildNumber env bld N s =
        .ok (some rid, s.debug ("Got repositoryid: " ++ rid)) := by
      simp only [getRepositoryIdFromBuildNumber, bidKey] at hb1 ⊢
      rw [hb1]
      rw [if_neg (by simp [hb2])]
      rw [hb3]
      simp [hb4]
    unfold getRepositoryId
    simp only [ridKey] at h1
    rcases h1 with h1 | h1
    · rw [h1]
      exact ⟨_, hfb⟩
    · rw [h1]
      simp only [ne_eq, not_true_eq_false, if_false]
      exact ⟨_, hfb⟩

theorem discovery_single_matching_variable
    (env : Env) (bld : BuildApi) (N key pv rid : String) (cv : Option String)
    (pre post : List VariableInfo)
    (hkey : ciKeyOf N key)
    (hvars : env.variableList = pre ++ ⟨key, pv⟩ :: post)
    (hpre : ∀ v ∈ pre, searchFrom v.name.data 0 = none)
    (hpost : ∀ v ∈ post, searchFrom v.name.data 0 = none)
    (hpv : pv = "Git" ∨ pv = "TfsGit")
    (hN : N.data.all dotOk = true)
    (hrid : (env.getVariable (ridKey N) = some rid ∧ rid ≠ "") ∨
      ((env.getVariable (ridKey N) = none ∨ env.getVariable (ridKey N) = some "") ∧
        ∃ bid build, env.getVariable (bidKey N) = some bid ∧ bid ≠ "" ∧
          bld.getBuild (jsToNumber (some bid)) = .ok build ∧ build.repository.id = rid))
    (hcv : env.getVariable (svKey N) = cv)
    (st : TaskState) :
    ∃ st2, getAllGitArtifacts env bld st =
      .ok ([{ name := N, commit := cv, repositoryId := rid }], st2) := by
  unfold getAllGitArtifacts
  rw [hvars]
  obtain ⟨stA, hA⟩ := loop_skip_zero env bld pre hpre (⟨key, pv⟩ :: post) [] st
  rw [hA]
  obtain ⟨stg, hg⟩ := getRepositoryId_resolves env bld N rid hrid
    (stA.debug ("Getting repository id for artifact: " ++ N))
  have hprov : ¬ (pv ≠ "TfsGit" ∧ pv ≠ "Git") := by
    rcases hpv with h | h <;> simp [h]
  obtain ⟨stZ, hZ⟩ := loop_skip_all env bld post hpost (38 + N.data.length)
    [{ name := N, commit := cv, repositoryId := rid }] stg
  refine ⟨stZ, ?_⟩
  simp only [svKey] at hcv
  simp only [getAllGitArtifactsLoop, key_exec_ci N key hkey hN, hprov, if_false, hg, hcv,
    List.nil_append]
  exact hZ

/-! ## Lemmas about the requests handed to the version-control client -/

theorem updateRef_submitted (a : IArtifactData) (r : String) (g : GitApi) (st : TaskState) :
    ((updateRef a r g st).2).submitted = st.submitted ++ [refUpdateFor a r] := by
  unfold updateRef
  cases h : g.updateRefs [refUpdateFor a r] a.repositoryId with
  | none => simp [h]
  | some l => cases l <;> simp [h]

theorem doesRefExist_submitted (a : IArtifactData) (r : String) (g : GitApi) (st : TaskState) :
    ((doesRefExist a r g st).2).submitted = st.submitted := by
  unfold doesRefExist
  cases h : g.getRefs a.repositoryId with
  | none => simp [h]
  | some refs =>
    cases hf : refs.find? (fun x => x.name == r) with
    | none => simp [h, hf]
    | some f => by_cases hc : a.commit = some f.objectId <;> simp [h, hf, hc]

theorem classifyAndFail_warnings (s : TaskState) (a : IArtifactData) (r : String)
    (res : GitRefUpdateResult) : (classifyAndFail s a r res).warnings = s.warnings := by
  cases h : res.updateStatus <;> simp [classifyAndFail, h]

theorem classifyAndFail_debugs (s : TaskState) (a : IArtifactData) (r : String)
    (res : GitRefUpdateResult) : (classifyAndFail s a r res).debugs = s.debugs := by
  cases h : res.updateStatus <;> simp [classifyAndFail, h]

theorem classifyAndFail_submitted (s : TaskState) (a : IArtifactData) (r : String)
    (res : GitRefUpdateResult) : (classifyAndFail s a r res).submitted = s.submitted := by
  cases h : res.updateStatus <;> simp [classifyAndFail, h]

theorem classifyAndFail_results (s : TaskState) (a : IArtifactData) (r : String)
    (res : GitRefUpdateResult) :
    (classifyAndFail s a r res).results = s.results ++ [(.Failed, createFailMsg r res)] := by
  cases h : res.updateStatus <;> simp [classifyAndFail, h]

theorem classifyAndFail_errors_branch (s : TaskState) (a : IArtifactData) (r : String)
    (res : GitRefUpdateResult) (h : res.updateStatus = .createBranchPermissionRequired) :
    (classifyAndFail s a r res).errors =
      s.errors ++ [permissionTemplate ++ "Create Branch", permSeeMsg a.repositoryId] := by
  simp [classifyAndFail, h]

theorem classifyAndFail_errors_tag (s : TaskState) (a : IArtifactData) (r : String)
    (res : GitRefUpdateResult) (h : res.updateStatus = .createTagPermissionRequired) :
    (classifyAndFail s a r res).errors =
      s.errors ++ [permissionTemplate ++ "Create Tag", permSeeMsg a.repositoryId] := by
  simp [classifyAndFail, h]

theorem processArtifact_submitted (a : IArtifactData) (r : String) (g : GitApi) (st : TaskState) :
    (stateOf (processArtifact a r g st)).submitted = st.submitted ++ [refUpdateFor a r] := by
  have hu := updateRef_submitted a r g (st.debug (processingMsg a r))
  rcases hupd : updateRef a r g (st.debug (processingMsg a r)) with ⟨o, st1⟩
  rw [hupd] at hu
  simp only [TaskState.debug_submitted] at hu
  cases o with
  | none =>
    simp only [processArtifact, hupd, stateOf]
    exact hu
  | some u =>
    by_cases hs : u.success = true
    · simp only [processArtifact, hupd, hs, if_true, stateOf]
      simpa using hu
    · have hd := doesRefExist_submitted a r g st1
      rcases hdr : doesRefExist a r g st1 with ⟨b, st2⟩
      rw [hdr] at hd
      have hd2 : st2.submitted = st1.submitted := hd
      cases b with
      | true =>
        simp [processArtifact, hupd, hs, hdr, stateOf, hd2, hu]
      | false =>
        simp [processArtifact, hupd, hs, hdr, stateOf, classifyAndFail_submitted, hd2, hu]

theorem runLoop_submitted_inv (g : GitApi) (r : String) :
    ∀ (as : List IArtifactData) (acc : List (String × Branch)) (st : TaskState),
      (∀ u ∈ st.submitted, u.oldObjectId = zeroObjectId) →
      ∀ u ∈ (stateOf (runLoop g r as acc st)).submitted, u.oldObjectId = zeroObjectId := by
  intro as
  induction as with
  | nil => exact fun acc st h => h
  | cons a rest ih =>
    intro acc st h u
    have hpa := processArtifact_submitted a r g st
    have hnext : ∀ w ∈ (stateOf (processArtifact a r g st)).submitted,
        w.oldObjectId = zeroObjectId := by
      rw [hpa]
      intro w hw
      rcases List.mem_append.mp hw with hw | hw
      · exact h w hw
      · rw [List.mem_singleton.mp hw]
        rfl
    cases hp : processArtifact a r g st with
    | error e =>
      rw [hp] at hnext
      simp only [runLoop, hp]
      exact hnext u
    | ok p =>
      rcases p with ⟨b, st1⟩
      rw [hp] at hnext
      simp only [runLoop, hp]
      exact ih (acc ++ [(a.name, b)]) st1 (fun w hw => hnext w hw) u

theorem getRepositoryIdFromBuildNumber_submitted (env : Env) (bld : BuildApi) (n : String)
    (st : TaskState) :
    (stateOf (getRepositoryIdFromBuildNumber env bld n st)).submitted = st.submitted := by
  unfold getRepositoryIdFromBuildNumber
  dsimp only
  split
  · rfl
  · split <;> rfl

theorem getRepositoryId_submitted (env : Env) (bld : BuildApi) (n : String) (st : TaskState) :
    (stateOf (getRepositoryId env bld n st)).submitted = st.submitted := by
  unfold getRepositoryId
  split
  · split
    · rfl
    · exact getRepositoryIdFromBuildNumber_submitted env bld n st
  · exact getRepositoryIdFromBuildNumber_submitted env bld n st

theorem getAllGitArtifactsLoop_submitted (env : Env) (bld : BuildApi) :
    ∀ (vs : List VariableInfo) (li : Nat) (acc : List IArtifactData) (st : TaskState),
      (stateOf (getAllGitArtifactsLoop env bld vs li acc st)).submitted = st.submitted := by
  intro vs
  induction vs with
  | nil => intro li acc st; rfl
  | cons v rest ih =>
    intro li acc st
    rcases hx : regexExecGI li v.name with ⟨o, li2⟩
    cases o with
    | none =>
      simp only [getAllGitArtifactsLoop, hx]
      simpa using ih li2 acc (st.debug ("No match for variable: " ++ v.name))
    | some cap =>
      simp only [getAllGitArtifactsLoop, hx]
      by_cases hv : v.value ≠ "TfsGit" ∧ v.value ≠ "Git"
      · rw [if_pos hv]
        simpa using ih li2 acc
          (st.debug ("Matching variable:  " ++ v.name ++ ", but artifact type: " ++ v.value))
      · rw [if_neg hv]
        have hgr := getRepositoryId_submitted env bld cap
          (st.debug ("Getting repository id for artifact: " ++ cap))
        cases hg : getRepositoryId env bld cap
            (st.debug ("Getting repository id for artifact: " ++ cap)) with
        | error e =>
          rw [hg] at hgr
          simpa [stateOf] using hgr
        | ok p =>
          rcases p with ⟨orid, st2⟩
          rw [hg] at hgr
          have hst2 : st2.submitted = st.submitted := by simpa [stateOf] using hgr
          cases orid with
          | none => rw [ih li2 acc st2, hst2]
          | some rid =>
            rw [ih li2 _ st2, hst2]

/-! ## Claim theorems -/

/-- C7: with every configuration input left at its default (whitespace-run
search pattern, replace-all flags, empty replacement), deriving a ref name
from release name "My Release 1" under the ref namespace "refs/tags/"
returns exactly "refs/tags/MyRelease1". -/
theorem c7_default_derivation :
    generateRef envDefaults jsEngineDefault "My Release 1" "refs/tags/" =
      "refs/tags/MyRelease1" := rfl

/-- C2: in any invocation, every `GitRefUpdate` request ever handed to the
version-control client's `updateRefs` carries the 40-character all-zero
sentinel as its expected prior object id (`oldObjectId`): the task only ever
attempts to create a ref and never submits a request that would force-move
or overwrite an existing ref. -/
theorem c2_requests_always_zero_sentinel (env : Env) (bld : BuildApi) (g : GitApi)
    (refName : String) :
    ∀ u ∈ (run env bld g refName).2.submitted, u.oldObjectId = zeroObjectId := by
  have hds : (stateOf (getAllGitArtifacts env bld initState)).submitted = [] :=
    getAllGitArtifactsLoop_submitted env bld env.variableList 0 [] initState
  cases hd : getAllGitArtifacts env bld initState with
  | error e =>
    rcases e with ⟨msg, st⟩
    rw [hd] at hds
    have hst : st.submitted = [] := hds
    simp only [run, hd]
    simp [hst]
  | ok p =>
    rcases p with ⟨arts, st⟩
    rw [hd] at hds
    have hst : st.submitted = [] := hds
    have hst1 : (if arts.length = 0 then st.warning "No TfsGit artifacts found."
        else st).submitted = [] := by
      by_cases h0 : arts.length = 0 <;> simp [h0, hst]
    have hinv := runLoop_submitted_inv g refName arts []
      (if arts.length = 0 then st.warning "No TfsGit artifacts found." else st)
      (by rw [hst1]; intro u hu; exact absurd hu (List.not_mem_nil u))
    cases hl : runLoop g refName arts []
        (if arts.length = 0 then st.warning "No TfsGit artifacts found." else st) with
    | error e2 =>
      rcases e2 with ⟨msg2, st2⟩
      rw [hl] at hinv
      simp only [run, hd, hl]
      intro u hu
      simp only [TaskState.setResult_submitted] at hu
      exact hinv u hu
    | ok p2 =>
      rcases p2 with ⟨outs, st2⟩
      rw [hl] at hinv
      simp only [run, hd, hl]
      exact fun u hu => hinv u hu

/-- Witness for C2: a full concrete invocation that really submits a request,
whose expected prior object id is the sentinel. -/
theorem c2_witness :
    (refUpdateFor { name := "AA", commit := some "ca", repositoryId := "r1" }
      "refs/tags/T").oldObjectId = zeroObjectId :=
  c2_requests_always_zero_sentinel envSingle bldNone gitAccepts "refs/tags/T"
    (refUpdateFor { name := "AA", commit := some "ca", repositoryId := "r1" } "refs/tags/T")
    (by decide)

/-- C1: reconciling an artifact with a fixed commit twice against the same
(create-only) external ref store yields the success exit (`Ref updated!`)
on the first run; on the second run the create attempt fails because the
ref now exists at that same commit, and the already-correct exit is taken
and treated as success (no warning, no failure result); the divergence
outcome never occurs in this two-run scenario. -/
theorem c1_two_runs_idempotent (a : IArtifactData) (refName c : String)
    (repo0 : List GitRef) (st : TaskState)
    (hc : a.commit = some c) (h0 : ∀ r ∈ repo0, r.name ≠ refName) :
    ∃ st1 st2,
      processArtifact a refName (serverGitApi repo0) st = .ok (.updated, st1) ∧
      processArtifact a refName
          (serverGitApi (serverApplyUpdates repo0 [refUpdateFor a refName])) st1 =
        .ok (.alreadyCorrect, st2) ∧
      st1.warnings = st.warnings ∧ st2.warnings = st.warnings ∧
      st1.results = st.results ∧ st2.results = st.results := by
  have hnex : ¬ ∃ x ∈ repo0, x.name = refName := by
    rintro ⟨x, hx, he⟩
    exact h0 x hx he
  have hfindnone : repo0.find? (fun x => x.name == refName) = none :=
    List.find?_eq_none.mpr (fun x hx => by simpa using h0 x hx)
  have hrepo1 : serverApplyUpdates repo0 [refUpdateFor a refName] =
      repo0 ++ [{ name := refName, objectId := c }] := by
    simp [serverApplyUpdates, refUpdateFor, hnex, hc]
  have hex2 : ∃ x ∈ repo0 ++ [({ name := refName, objectId := c } : GitRef)],
      x.name = refName :=
    ⟨{ name := refName, objectId := c }, List.mem_append_right _ (by simp), rfl⟩
  have hfind2 : (repo0 ++ [({ name := refName, objectId := c } : GitRef)]).find?
      (fun x => x.name == refName) = some { name := refName, objectId := c } := by
    rw [List.find?_append, hfindnone]
    simp
  refine ⟨((st.debug (processingMsg a refName)).submit [refUpdateFor a refName]).debug
      "Ref updated!",
    (((((st.debug (processingMsg a refName)).submit [refUpdateFor a refName]).debug
      "Ref updated!").debug (processingMsg a refName)).submit [refUpdateFor a refName]).debug
      "Found matching ref for commit.",
    ?_, ?_, by simp, by simp, by simp, by simp⟩
  · simp [processArtifact, updateRef, serverGitApi, refUpdateFor, hnex]
  · rw [hrepo1]
    simp [processArtifact, updateRef, doesRefExist, serverGitApi, refUpdateFor, hex2,
      hfind2, hc]

/-- Witness for C1: the concrete two-run scenario starting from an empty
ref store. -/
theorem c1_witness :
    ∃ st1 st2,
      processArtifact artifactW "refs/tags/T" (serverGitApi []) initState =
        .ok (.updated, st1) ∧
      processArtifact artifactW "refs/tags/T"
          (serverGitApi (serverApplyUpdates [] [refUpdateFor artifactW "refs/tags/T"]))
          st1 =
        .ok (.alreadyCorrect, st2) ∧
      st1.warnings = initState.warnings ∧ st2.warnings = initState.warnings ∧
      st1.results = initState.results ∧ st2.results = initState.results :=
  c1_two_runs_idempotent artifactW "refs/tags/T" "c1" [] initState rfl (by simp)

/-- C3 counterexample: with the ref already existing on a different commit
and the create attempt failing, the reconciler does log the divergence
warning, but it also falls through to the classification step and marks the
invocation failed — divergence IS counted as a failure, contradicting the
claim that only a warning is produced. -/
theorem c3_counterexample :
    (processArtifact artifactW "refs/tags/T" gitDiverged initState).toOption.map
      (fun p => (p.1, p.2.warnings, p.2.results.map Prod.fst)) =
    some (.failedClassified,
      ["Ref exists, but on different commit. New commit: c1 Old Commit: old1"],
      [.Failed]) := rfl

/-- C3 (amended): when the create attempt fails and the target ref exists on
a different commit, the reconciler logs the divergence warning and then
proceeds to the classify-and-fail step, marking the invocation failed; the
existing ref itself is left unchanged — the only request ever submitted for
the artifact is the original sentinel-guarded create attempt. -/
theorem c3_divergence_warns_and_fails (a : IArtifactData) (refName : String) (g : GitApi)
    (st : TaskState) (res : GitRefUpdateResult) (refs : List GitRef) (foundRef : GitRef)
    (hupd : g.updateRefs [refUpdateFor a refName] a.repositoryId = some [res])
    (hfail : res.success = false)
    (hrefs : g.getRefs a.repositoryId = some refs)
    (hfind : refs.find? (fun x => x.name == refName) = some foundRef)
    (hdiff : a.commit ≠ some foundRef.objectId) :
    ∃ st4, processArtifact a refName g st = .ok (.failedClassified, st4) ∧
      st4.warnings = st.warnings ++ [divergeMsg a foundRef] ∧
      st4.results = st.results ++ [(.Failed, createFailMsg refName res)] ∧
      st4.submitted = st.submitted ++ [refUpdateFor a refName] := by
  have hdany : ∀ s : TaskState, doesRefExist a refName g s =
      (false, s.warning (divergeMsg a foundRef)) := fun s => by
    simp [doesRefExist, hrefs, hfind, hdiff]
  refine ⟨classifyAndFail (((st.debug (processingMsg a refName)).submit
      [refUpdateFor a refName]).warning (divergeMsg a foundRef)) a refName res,
    ?_, ?_, ?_, ?_⟩
  · simp [processArtifact, updateRef, hupd, hfail, hdany]
  · simp [classifyAndFail_warnings]
  · simp [classifyAndFail_results]
  · simp [classifyAndFail_submitted]

/-- Witness for the amended C3 theorem, at the concrete divergence fixture. -/
theorem c3_amended_witness :
    ∃ st4, processArtifact artifactW "refs/tags/T" gitDiverged initState =
        .ok (.failedClassified, st4) ∧
      st4.warnings = initState.warnings ++
        [divergeMsg artifactW { name := "refs/tags/T", objectId := "old1" }] ∧
      st4.results = initState.results ++
        [(.Failed, createFailMsg "refs/tags/T"
          { success := false, updateStatus := .other, repositoryId := "r",
            newObjectId := some "c1" })] ∧
      st4.submitted = initState.submitted ++ [refUpdateFor artifactW "refs/tags/T"] :=
  c3_divergence_warns_and_fails artifactW "refs/tags/T" gitDiverged initState
    { success := false, updateStatus := .other, repositoryId := "r", newObjectId := some "c1" }
    [{ name := "refs/tags/T", objectId := "old1" }]
    { name := "refs/tags/T", objectId := "old1" }
    rfl rfl rfl (by decide) (by decide)

/-- C8: when the create attempt fails and no matching ref pre-exists, a
branch-permission denial produces the remediation error naming Create Branch
and a tag-permission denial the one naming Create Tag, in both cases
followed by the pointer to the repository's permissions-administration
location. -/
theorem c8_permission_remediation (a : IArtifactData) (refName : String) (g : GitApi)
    (st : TaskState) (res : GitRefUpdateResult) (refs : List GitRef)
    (hupd : g.updateRefs [refUpdateFor a refName] a.repositoryId = some [res])
    (hfail : res.success = false)
    (hrefs : g.getRefs a.repositoryId = some refs)
    (hfind : refs.find? (fun x => x.name == refName) = none) :
    (res.updateStatus = .createBranchPermissionRequired →
      ∃ st4, processArtifact a refName g st = .ok (.failedClassified, st4) ∧
        st4.errors = st.errors ++
          [permissionTemplate ++ "Create Branch", permSeeMsg a.repositoryId]) ∧
    (res.updateStatus = .createTagPermissionRequired →
      ∃ st4, processArtifact a refName g st = .ok (.failedClassified, st4) ∧
        st4.errors = st.errors ++
          [permissionTemplate ++ "Create Tag", permSeeMsg a.repositoryId]) := by
  have hdany : ∀ s : TaskState, doesRefExist a refName g s = (false, s) := fun s => by
    simp [doesRefExist, hrefs, hfind]
  constructor
  · intro hst
    refine ⟨classifyAndFail ((st.debug (processingMsg a refName)).submit
        [refUpdateFor a refName]) a refName res, ?_, ?_⟩
    · simp [processArtifact, updateRef, hupd, hfail, hdany]
    · rw [classifyAndFail_errors_branch _ _ _ _ hst]
      simp
  · intro hst
    refine ⟨classifyAndFail ((st.debug (processingMsg a refName)).submit
        [refUpdateFor a refName]) a refName res, ?_, ?_⟩
    · simp [processArtifact, updateRef, hupd, hfail, hdany]
    · rw [classifyAndFail_errors_tag _ _ _ _ hst]
      simp

/-- Witness for C8: both permission denials at concrete clients. -/
theorem c8_witness :
    (∃ st4, processArtifact artifactW "refs/tags/T" gitPermBranch initState =
        .ok (.failedClassified, st4) ∧
      st4.errors = initState.errors ++
        [permissionTemplate ++ "Create Branch", permSeeMsg "r"]) ∧
    (∃ st4, processArtifact artifactW "refs/tags/T" gitPermTag initState =
        .ok (.failedClassified, st4) ∧
      st4.errors = initState.errors ++
        [permissionTemplate ++ "Create Tag", permSeeMsg "r"]) :=
  ⟨(c8_permission_remediation artifactW "refs/tags/T" gitPermBranch initState
      { success := false, updateStatus := .createBranchPermissionRequired,
        repositoryId := "r", newObjectId := some "c1" }
      [{ name := "refs/heads/main", objectId := "m1" }] rfl rfl rfl (by decide)).1 rfl,
   (c8_permission_remediation artifactW "refs/tags/T" gitPermTag initState
      { success := false, updateStatus := .createTagPermissionRequired,
        repositoryId := "r", newObjectId := some "c1" }
      [{ name := "refs/heads/main", objectId := "m1" }] rfl rfl rfl (by decide)).2 rfl⟩

/-- C10: when the ref listing resolves to a null payload after a failed
create attempt, the divergence check returns false without raising any
error, exactly as for an empty repository, and the reconciler proceeds to
the classify-and-fail step. -/
theorem c10_null_ref_listing (a : IArtifactData) (refName : String) (g g2 : GitApi)
    (st : TaskState)
    (hrefs : g.getRefs a.repositoryId = none)
    (hrefs2 : g2.getRefs a.repositoryId = some []) :
    doesRefExist a refName g st = (false, st) ∧
    doesRefExist a refName g st = doesRefExist a refName g2 st ∧
    (∀ res, g.updateRefs [refUpdateFor a refName] a.repositoryId = some [res] →
      res.success = false →
      processArtifact a refName g st = .ok (.failedClassified,
        classifyAndFail ((st.debug (processingMsg a refName)).submit
          [refUpdateFor a refName]) a refName res)) := by
  have h1 : doesRefExist a refName g st = (false, st) := by simp [doesRefExist, hrefs]
  have h2 : doesRefExist a refName g2 st = (false, st) := by simp [doesRefExist, hrefs2]
  have hdany : ∀ s : TaskState, doesRefExist a refName g s = (false, s) := fun s => by
    simp [doesRefExist, hrefs]
  refine ⟨h1, by rw [h1, h2], ?_⟩
  intro res hres hfail
  simp [processArtifact, updateRef, hres, hfail, hdany]

/-- Witness for C10 at concrete clients (null listing vs empty repository). -/
theorem c10_witness :
    doesRefExist artifactW "refs/tags/T" gitNullRefs initState = (false, initState) ∧
    doesRefExist artifactW "refs/tags/T" gitNullRefs initState =
      doesRefExist artifactW "refs/tags/T" gitNullResult initState ∧
    (∀ res, gitNullRefs.updateRefs [refUpdateFor artifactW "refs/tags/T"]
        artifactW.repositoryId = some [res] →
      res.success = false →
      processArtifact artifactW "refs/tags/T" gitNullRefs initState =
        .ok (.failedClassified,
          classifyAndFail ((initState.debug (processingMsg artifactW "refs/tags/T")).submit
            [refUpdateFor artifactW "refs/tags/T"]) artifactW "refs/tags/T" res)) :=
  c10_null_ref_listing artifactW "refs/tags/T" gitNullRefs gitNullResult initState rfl rfl

/-- C4 (code bug): when `updateRefs` returns no result for the first
artifact, the warning is logged, but the subsequent null dereference throws,
the whole invocation is marked failed, and the remaining sibling artifact
(BB, which discovery did find) is never processed — instead of the claimed
artifact-level soft failure with processing continuing. -/
theorem c4_null_result_aborts_invocation :
    (run envC4 bldNone gitNullResult "refs/tags/T").1 = [] ∧
    (run envC4 bldNone gitNullResult "refs/tags/T").2.results =
      [(.Failed, "TypeError: Cannot read property success of null")] ∧
    (run envC4 bldNone gitNullResult "refs/tags/T").2.warnings =
      ["No update result returned from updateRefs"] ∧
    (getAllGitArtifacts envC4 bldNone initState).toOption.map
      (fun p => p.1.map IArtifactData.name) = some ["AA", "BB"] :=
  ⟨rfl, rfl, rfl, rfl⟩

/-- C5 (code bug): artifact FF has neither a repository id nor any BUILDID
variable; the strict null guard does not catch the absent (undefined) value,
`getBuild(NaN)` rejects, the exception aborts discovery, the invocation is
marked failed and the fully resolvable sibling GG is never processed — even
though the same sibling alone is discovered and reconciled successfully. -/
theorem c5_absent_buildid_aborts_invocation :
    (run envC5 bldC5 gitAccepts "refs/tags/T").1 = [] ∧
    (run envC5 bldC5 gitAccepts "refs/tags/T").2.results =
      [(.Failed, "Build id is not a valid number")] ∧
    (getAllGitArtifacts envC5Sibling bldC5 initState).toOption.map (fun p => p.1) =
      some [{ name := "GG", commit := some "cg", repositoryId := "r2" }] ∧
    (run envC5Sibling bldC5 gitAccepts "refs/tags/T").1 = [("GG", .updated)] :=
  ⟨rfl, rfl, rfl, rfl⟩

/-- C6 counterexample: artifact BB satisfies every premise of the claim (its
provider variable holds "Git", its SOURCEVERSION and a non-empty
REPOSITORY_ID are configured), yet because its provider variable is scanned
immediately after another successful match, the persistent match position of
the global regex makes `exec` skip it: discovery yields a descriptor for AA
only and none for BB — not "exactly one ArtifactDescriptor ... regardless of
what other variables are present". -/
theorem c6_counterexample :
    (getAllGitArtifacts envTwoProviders bldNone initState).toOption.map
      (fun p => p.1.map IArtifactData.name) = some ["AA"] := rfl

/-- C6 (amended): for every artifact name token N (no line terminators) and
every case variant `key` of the key RELEASE.ARTIFACTS.N.REPOSITORY.PROVIDER
(the key is matched case-insensitively), a configuration set whose only
variable matching the discovery pattern anywhere in its name is `key` with
value "Git" or "TfsGit", together with a SOURCEVERSION value and either a
non-empty REPOSITORY_ID or a resolvable BUILDID, yields exactly one
ArtifactDescriptor, whose name, commit and repositoryId match the configured
values, wherever the non-matching variables sit in the scan order.  (As
frozen, the claim is refuted by `c6_counterexample`: a second
pattern-matching variable scanned immediately before N's can make the
scanner skip N's variable, because the global regex object's match position
persists across `exec` calls.) -/
theorem c6_single_matching_key_discovered
    (env : Env) (bld : BuildApi) (N key pv rid cv : String)
    (pre post : List VariableInfo)
    (hkey : ciKeyOf N key)
    (hvars : env.variableList = pre ++ ⟨key, pv⟩ :: post)
    (hpre : ∀ v ∈ pre, searchFrom v.name.data 0 = none)
    (hpost : ∀ v ∈ post, searchFrom v.name.data 0 = none)
    (hpv : pv = "Git" ∨ pv = "TfsGit")
    (hN : N.data.all dotOk = true)
    (hrid : (env.getVariable (ridKey N) = some rid ∧ rid ≠ "") ∨
      ((env.getVariable (ridKey N) = none ∨ env.getVariable (ridKey N) = some "") ∧
        ∃ bid build, env.getVariable (bidKey N) = some bid ∧ bid ≠ "" ∧
          bld.getBuild (jsToNumber (some bid)) = .ok build ∧ build.repository.id = rid))
    (hcv : env.getVariable (svKey N) = some cv)
    (st : TaskState) :
    ∃ st2, getAllGitArtifacts env bld st =
      .ok ([{ name := N, commit := some cv, repositoryId := rid }], st2) :=
  discovery_single_matching_variable env bld N key pv rid (some cv) pre post hkey hvars
    hpre hpost hpv hN hrid hcv st

/-- Witness for the amended C6 theorem: a concrete mixed-case MyArt
configuration with unrelated variables before and after the provider key. -/
theorem c6_witness :
    ∃ st2, getAllGitArtifacts envC6Witness bldNone initState =
      .ok ([{ name := "MyArt", commit := some "cm", repositoryId := "rm" }], st2) :=
  c6_single_matching_key_discovered envC6Witness bldNone "MyArt"
    "rElease.ARTIFACTS.MyArt.Repository.proVIDER" "Git" "rm" "cm"
    [⟨"X", "y"⟩] [⟨"Z", "w"⟩]
    ⟨"rElease".data, "ARTIFACTS".data, "Repository".data, "proVIDER".data,
      by decide, by decide, by decide, by decide, rfl⟩
    rfl
    (by intro v hv; simp at hv; rw [hv]; decide)
    (by intro v hv; simp at hv; rw [hv]; decide)
    (Or.inl rfl) (by decide) (Or.inl ⟨rfl, by decide⟩) rfl initState

/-- C9 counterexample: the provider key of artifact BB matches the discovery
pattern, holds the recognized value "Git", has a non-empty REPOSITORY_ID and
no SOURCEVERSION variable at all — every premise of the claim — yet no
ArtifactDescriptor is emitted for it, because the scanner's persistent match
position skips a key scanned immediately after another successful match;
only AA's descriptor (with its own absent commit) is produced. -/
theorem c9_counterexample :
    (getAllGitArtifacts envC9Counter bldNone initState).toOption.map (fun p => p.1) =
      some [{ name := "AA", commit := none, repositoryId := "r1" }] := rfl

/-- C9 (amended): for every configuration key matching the discovery pattern
case-insensitively for an artifact name token N (no line terminators), with
a recognized provider value ("Git" or "TfsGit") and a resolvable repository
id (direct non-empty REPOSITORY_ID or resolvable BUILDID), and with no other
pattern-matching variable in the configuration (the scanner's persistent
match position can otherwise skip the key, see `c9_counterexample`), an
ArtifactDescriptor is emitted whatever the SOURCEVERSION value is — an
entirely absent or empty commit included: discovery never filters an
artifact out because of its commit value. -/
theorem c9_commit_value_never_filters
    (env : Env) (bld : BuildApi) (N key pv rid : String) (cv : Option String)
    (pre post : List VariableInfo)
    (hkey : ciKeyOf N key)
    (hvars : env.variableList = pre ++ ⟨key, pv⟩ :: post)
    (hpre : ∀ v ∈ pre, searchFrom v.name.data 0 = none)
    (hpost : ∀ v ∈ post, searchFrom v.name.data 0 = none)
    (hpv : pv = "Git" ∨ pv = "TfsGit")
    (hN : N.data.all dotOk = true)
    (hrid : (env.getVariable (ridKey N) = some rid ∧ rid ≠ "") ∨
      ((env.getVariable (ridKey N) = none ∨ env.getVariable (ridKey N) = some "") ∧
        ∃ bid build, env.getVariable (bidKey N) = some bid ∧ bid ≠ "" ∧
          bld.getBuild (jsToNumber (some bid)) = .ok build ∧ build.repository.id = rid))
    (hcv : env.getVariable (svKey N) = cv)
    (st : TaskState) :
    ∃ st2, getAllGitArtifacts env bld st =
      .ok ([{ name := N, commit := cv, repositoryId := rid }], st2) :=
  discovery_single_matching_variable env bld N key pv rid cv pre post hkey hvars
    hpre hpost hpv hN hrid hcv st

/-- Witness for the amended C9 theorem: a lower-case TfsGit provider key
resolved through the BUILDID path, surrounded by unrelated variables, with
no SOURCEVERSION variable at all — discovered with an absent commit. -/
theorem c9_witness :
    ∃ st2, getAllGitArtifacts envC9Witness bldC9 initState =
      .ok ([{ name := "NoSv", commit := none, repositoryId := "rn" }], st2) :=
  c9_commit_value_never_filters envC9Witness bldC9 "NoSv"
    "release.artifacts.NoSv.repository.provider" "TfsGit" "rn" none
    [⟨"q", "z"⟩] [⟨"w", "k"⟩]
    ⟨"release".data, "artifacts".data, "repository".data, "provider".data,
      by decide, by decide, by decide, by decide, rfl⟩
    rfl
    (by intro v hv; simp at hv; rw [hv]; decide)
    (by intro v hv; simp at hv; rw [hv]; decide)
    (Or.inr rfl) (by decide)
    (Or.inr ⟨Or.inl rfl, "7", ⟨⟨"rn"⟩⟩, rfl, by decide, rfl, rfl⟩)
    rfl initState
